import Mathlib

/-!
Shallow embedding of the E-Commerce-Shop backend (src/backend) and proofs
about its cart, checkout, order and authentication operations.

Conventions of the embedding:
* Database tables are Lean lists of rows; autoincrement primary keys are
  explicit counters in the store.
* Money columns (DECIMAL(10,2)) are exact rationals; Python Decimal and
  float arithmetic over them is modelled as exact rational arithmetic.
* A JSON options map (Python dict) is modelled as its entry list in a
  canonical key order, so Python dict equality is entry-list equality.
* A request handler is a function from the store (and its inputs) to
  `Except Err` of its result; a raised exception aborts the request and the
  enclosing transaction rolls the store back (database.py get_db never
  commits; each handler commits explicitly on its success path only).
* Timestamps are abstract `Nat` clock values passed in as `now`.
-/

namespace Shop

/-- User roles, from models.py UserRole. -/
inductive UserRole
  | customer
  | admin
deriving DecidableEq, Repr

/-- Order statuses, from models.py OrderStatus. -/
inductive OrderStatus
  | pending
  | confirmed
  | paymentPending
  | paymentReceived
  | delivered
  | canceled
deriving DecidableEq, Repr

/-- The string value of each order status, as in the Python str enum. -/
def OrderStatus.value : OrderStatus → String
  | .pending => "Pending"
  | .confirmed => "Confirmed"
  | .paymentPending => "Payment Pending"
  | .paymentReceived => "Payment Received"
  | .delivered => "Delivered"
  | .canceled => "Canceled"

/-- All six order statuses, in declaration order. -/
def OrderStatus.all : List OrderStatus :=
  [.pending, .confirmed, .paymentPending, .paymentReceived, .delivered, .canceled]

/-- Find the status with a given string value, as the storage layer does when
an enum column is assigned a raw string. -/
def OrderStatus.ofValue (s : String) : Option OrderStatus :=
  OrderStatus.all.find? (fun st => st.value == s)

/-- A JSON options map (free-form Python dict of selected options), modelled
as its entry list in a canonical key order; `none` models Python None. -/
abbrev OptionsMap := Option (List (String × String))

/-- Users table row, models.py User. -/
structure User where
  id : Nat
  email : String
  nickname : String
  password_hash : String
  role : UserRole
  street_address : Option String := none
  city : Option String := none
  postal_code : Option String := none
  country : Option String := none
  payment_method : Option String := none
  created_at : Nat := 0
  updated_at : Nat := 0
deriving DecidableEq, Repr

/-- Products table row, models.py Product. -/
structure Product where
  id : Nat
  category_id : Nat := 1
  title : String
  description : Option String := none
  image : Option String := none
  base_price : Rat
  options : OptionsMap := none
  stock_quantity : Int
  is_active : Bool
  created_at : Nat := 0
  updated_at : Nat := 0
deriving DecidableEq, Repr

/-- CartItems table row, models.py CartItem. -/
structure CartItem where
  id : Nat
  user_id : Nat
  product_id : Nat
  quantity : Int
  selected_options : OptionsMap := none
  created_at : Nat := 0
  updated_at : Nat := 0
deriving DecidableEq, Repr

/-- Orders table row, models.py Order. -/
structure Order where
  id : Nat
  user_id : Nat
  order_date : Nat
  status : OrderStatus
  shipping_street : Option String := none
  shipping_city : Option String := none
  shipping_postal_code : Option String := none
  shipping_country : Option String := none
  subtotal : Rat
  tax : Rat := 0
  shipping_cost : Rat := 0
  total : Rat
  customer_notes : Option String := none
  admin_notes : Option String := none
  updated_at : Nat := 0
deriving DecidableEq, Repr

/-- OrderItems table row, models.py OrderItem. -/
structure OrderItem where
  id : Nat
  order_id : Nat
  product_id : Nat
  product_title : String
  product_image : Option String
  quantity : Int
  price : Rat
  selected_options : OptionsMap
  created_at : Nat := 0
deriving DecidableEq, Repr

/-- The relational store: one list per table plus autoincrement counters. -/
structure DB where
  users : List User := []
  products : List Product := []
  cartItems : List CartItem := []
  orders : List Order := []
  orderItems : List OrderItem := []
  nextUserId : Nat := 1
  nextCartItemId : Nat := 1
  nextOrderId : Nat := 1
  nextOrderItemId : Nat := 1
deriving DecidableEq, Repr

/-- Failures surfaced by a request handler. `http` models a fastapi
HTTPException (400 constraint violation, 403 Forbidden, 404 NotFound,
422 schema validation); `multipleResults` models sqlalchemy
MultipleResultsFound escaping scalar_one_or_none; `attributeError` models a
Python AttributeError. The latter two abort the request as an internal
server error, not as an HTTPException. -/
inductive Err
  | http (code : Nat) (detail : String)
  | multipleResults
  | attributeError (detail : String)
deriving DecidableEq, Repr

/-- Decidable equality of request results, for evaluating the operations on
concrete stores. -/
instance exceptDecidableEq {α β : Type} [DecidableEq α] [DecidableEq β] :
    DecidableEq (Except α β) := fun x y =>
  match x, y with
  | .ok a, .ok b => if h : a = b then .isTrue (by rw [h]) else .isFalse (by simp [h])
  | .error a, .error b => if h : a = b then .isTrue (by rw [h]) else .isFalse (by simp [h])
  | .ok _, .error _ => .isFalse (by simp)
  | .error _, .ok _ => .isFalse (by simp)

/-- sqlalchemy Result.scalar_one_or_none: none on zero rows, the row on
exactly one, and MultipleResultsFound on more. -/
def scalarOneOrNone {α : Type} : List α → Except Err (Option α)
  | [] => .ok none
  | [x] => .ok (some x)
  | _ :: _ :: _ => .error .multipleResults

/-- Insert a cart line into a list sorted ascending by created_at. -/
def insertLeCreated (x : CartItem) : List CartItem → List CartItem
  | [] => [x]
  | y :: ys => if x.created_at ≤ y.created_at then x :: y :: ys else y :: insertLeCreated x ys

/-- ORDER BY created_at ascending, as a stable insertion sort. -/
def sortByCreated : List CartItem → List CartItem
  | [] => []
  | x :: xs => insertLeCreated x (sortByCreated xs)

/-- Insert a cart line into a list sorted descending by created_at. -/
def insertGeCreated (x : CartItem) : List CartItem → List CartItem
  | [] => [x]
  | y :: ys => if y.created_at ≤ x.created_at then x :: y :: ys else y :: insertGeCreated x ys

/-- ORDER BY created_at descending, as a stable insertion sort. -/
def sortByCreatedDesc : List CartItem → List CartItem
  | [] => []
  | x :: xs => insertGeCreated x (sortByCreatedDesc xs)

/-- Python round(x, 2) — round half to even — applied to an exact decimal
value modelled as a rational. -/
def pyRound2 (q : Rat) : Rat :=
  let s : Rat := q * 100
  let f : Int := Int.floor s
  let r : Rat := s - (f : Rat)
  let n : Int :=
    if r < 1 / 2 then f
    else if 1 / 2 < r then f + 1
    else if f % 2 = 0 then f else f + 1
  (n : Rat) / 100

/-- One element of get_cart response items (cart.py lines 50-59): the line
joined to its current product row. -/
structure CartEntry where
  id : Nat
  user_id : Nat
  product_id : Nat
  product : Product
  quantity : Int
  selected_options : OptionsMap
  created_at : Nat
  updated_at : Nat
deriving DecidableEq, Repr

/-- schemas.py CartSummary. -/
structure CartSummary where
  items : List CartEntry
  total_items : Nat
  subtotal : Rat
deriving DecidableEq, Repr

/-- Build the joined response element for one cart line. -/
def entryOf (ci : CartItem) (p : Product) : CartEntry :=
  { id := ci.id, user_id := ci.user_id, product_id := ci.product_id, product := p,
    quantity := ci.quantity, selected_options := ci.selected_options,
    created_at := ci.created_at, updated_at := ci.updated_at }

/-- Loop body of get_cart: skip the line if its product row is gone, else
append the joined entry and add price times quantity to the running sum. -/
def getCartStep (db : DB) (acc : List CartEntry × Rat) (ci : CartItem) :
    List CartEntry × Rat :=
  match db.products.find? (fun p => p.id == ci.product_id) with
  | none => acc
  | some p => (acc.1 ++ [entryOf ci p], acc.2 + p.base_price * (ci.quantity : Rat))

/-- get_cart, cart.py lines 15-65. Lines are read newest first; each is
joined to its current product; lines whose product was deleted are skipped;
the subtotal is rounded to 2 decimal places at the end. -/
def get_cart (db : DB) (userId : Nat) : CartSummary :=
  let res := (sortByCreatedDesc (db.cartItems.filter (fun ci => ci.user_id == userId))).foldl
    (getCartStep db) ([], 0)
  { items := res.1, total_items := res.1.length, subtotal := pyRound2 res.2 }

/-- schemas.py CartItemCreate; pydantic requires quantity > 0. -/
structure CartItemCreate where
  product_id : Nat
  quantity : Int
  selected_options : OptionsMap := none
deriving DecidableEq, Repr

/-- The fresh cart line built by add_to_cart when no merge happens. -/
def newCartLine (db : DB) (userId : Nat) (d : CartItemCreate) (now : Nat) : CartItem :=
  { id := db.nextCartItemId, user_id := userId, product_id := d.product_id,
    quantity := d.quantity, selected_options := d.selected_options,
    created_at := now, updated_at := now }

/-- Insert a fresh cart line (cart.py lines 116-130). -/
def addNewCartItem (db : DB) (userId : Nat) (d : CartItemCreate) (now : Nat) :
    Except Err (DB × CartItem) :=
  .ok ({ db with
          cartItems := db.cartItems ++ [newCartLine db userId d now],
          nextCartItemId := db.nextCartItemId + 1 }, newCartLine db userId d now)

/-- add_to_cart, cart.py lines 68-130. -/
def add_to_cart (db : DB) (userId : Nat) (d : CartItemCreate) (now : Nat) :
    Except Err (DB × CartItem) :=
  match db.products.find? (fun p => p.id == d.product_id) with
  | none => .error (.http 404 ("Product not found"))
  | some p =>
    if p.is_active = false then
      .error (.http 400 ("Product is not available for purchase"))
    else
      match scalarOneOrNone (db.cartItems.filter
          (fun ci => ci.user_id == userId && ci.product_id == d.product_id)) with
      | .error e => .error e
      | .ok (some existing) =>
        if existing.selected_options == d.selected_options then
          let updated : CartItem :=
            { existing with quantity := existing.quantity + d.quantity, updated_at := now }
          .ok ({ db with cartItems :=
                  db.cartItems.map (fun ci => if ci.id == existing.id then updated else ci) },
               updated)
        else
          addNewCartItem db userId d now
      | .ok none => addNewCartItem db userId d now

/-- remove_cart_item, cart.py lines 176-201: 404 when no line with that id
belongs to the caller, else the line is deleted. -/
def remove_cart_item (db : DB) (userId : Nat) (cartItemId : Nat) : Except Err DB :=
  match db.cartItems.find? (fun ci => ci.id == cartItemId && ci.user_id == userId) with
  | none => .error (.http 404 ("Cart item not found"))
  | some ci => .ok { db with cartItems := db.cartItems.filter (fun c => c.id != ci.id) }

/-- clear_cart, cart.py lines 204-219: delete every line of the caller. -/
def clear_cart (db : DB) (userId : Nat) : Except Err DB :=
  .ok { db with cartItems := db.cartItems.filter (fun ci => ci.user_id != userId) }

/-- Snapshot collected per cart line during checkout (order_items_data
element, orders.py lines 73-80). -/
structure ItemData where
  product_id : Nat
  product_title : String
  product_image : Option String
  quantity : Int
  price : Rat
  selected_options : OptionsMap
deriving DecidableEq, Repr, Inhabited

/-- Snapshot the loaded product row for one cart line. -/
def snapshotOf (p : Product) (ci : CartItem) : ItemData :=
  { product_id := p.id, product_title := p.title, product_image := p.image,
    quantity := ci.quantity, price := p.base_price, selected_options := ci.selected_options }

/-- In-session stock decrement on the loaded product row (orders.py line 83). -/
def decStock (ps : List Product) (pid : Nat) (q : Int) : List Product :=
  ps.map (fun p => if p.id == pid then { p with stock_quantity := p.stock_quantity - q } else p)

/-- Detail string of the insufficient-stock failure (orders.py line 65). -/
def checkoutStockMsg (p : Product) : String :=
  "Not enough stock for \x27" ++ p.title ++ "\x27. Available: " ++ toString p.stock_quantity

/-- The checkout loop over cart lines (orders.py lines 43-83): load the
product (the session identity map returns the already-decremented row when
two lines share a product), validate existence, active flag and stock,
accumulate the exact-decimal subtotal and the snapshot list, and decrement
the stock in session. Any failure aborts the whole request. -/
def processCartItems : List Product → List CartItem → Except Err (List Product × Rat × List ItemData)
  | ps, [] => .ok (ps, 0, [])
  | ps, ci :: rest =>
    match ps.find? (fun p => p.id == ci.product_id) with
    | none => .error (.http 400 ("Product " ++ toString ci.product_id ++ " not found"))
    | some p =>
      if p.is_active = false then
        .error (.http 400 ("Product \x27" ++ p.title ++ "\x27 is no longer available"))
      else if p.stock_quantity < ci.quantity then
        .error (.http 400 (checkoutStockMsg p))
      else
        match processCartItems (decStock ps ci.product_id ci.quantity) rest with
        | .error e => .error e
        | .ok (ps2, sub, ds) =>
          .ok (ps2, p.base_price * (ci.quantity : Rat) + sub, snapshotOf p ci :: ds)

/-- Give the snapshots their autoincremented OrderItem primary keys. -/
def assignItemIds (startId : Nat) (orderId : Nat) : List ItemData → List OrderItem
  | [] => []
  | d :: ds =>
    { id := startId, order_id := orderId, product_id := d.product_id,
      product_title := d.product_title, product_image := d.product_image,
      quantity := d.quantity, price := d.price, selected_options := d.selected_options } ::
    assignItemIds (startId + 1) orderId ds

/-- checkout, orders.py lines 16-129: load the caller's cart lines ordered
by creation time, fail on an empty cart, run the validation loop, then in
one transaction create the Pending order with zero tax and shipping, create
one OrderItem per line, persist the stock decrements and delete the cart
lines. -/
def checkout (db : DB) (userId : Nat) (now : Nat) : Except Err (DB × Order) :=
  let cart := sortByCreated (db.cartItems.filter (fun ci => ci.user_id == userId))
  if cart.isEmpty then
    .error (.http 400 ("Cart is empty"))
  else
    match processCartItems db.products cart with
    | .error e => .error e
    | .ok (ps2, subtotal, ds) =>
      let tax : Rat := 0
      let shipping_cost : Rat := 0
      let total := subtotal + tax + shipping_cost
      let newOrder : Order :=
        { id := db.nextOrderId, user_id := userId, order_date := now, status := .pending,
          subtotal := subtotal, tax := tax, shipping_cost := shipping_cost, total := total,
          updated_at := now }
      let newItems := assignItemIds db.nextOrderItemId db.nextOrderId ds
      .ok ({ db with
              products := ps2,
              orders := db.orders ++ [newOrder],
              orderItems := db.orderItems ++ newItems,
              cartItems := db.cartItems.filter (fun ci => ci.user_id != userId),
              nextOrderId := db.nextOrderId + 1,
              nextOrderItemId := db.nextOrderItemId + ds.length }, newOrder)

/-- The store after running checkout inside its request transaction: a
raised exception rolls the transaction back, leaving the store as it was. -/
def runCheckout (db : DB) (userId : Nat) (now : Nat) : DB :=
  match checkout db userId now with
  | .error _ => db
  | .ok (db2, _) => db2

/-- get_order, orders.py lines 148-168: a single SELECT filtered on both the
order id and the caller's user id; 404 when it matches nothing. -/
def get_order (db : DB) (userId : Nat) (orderId : Nat) : Except Err Order :=
  match db.orders.find? (fun o => o.id == orderId && o.user_id == userId) with
  | none => .error (.http 404 ("Order not found"))
  | some o => .ok o

/-- Insert an order into a list sorted descending by order_date. -/
def insertGeDate (x : Order) : List Order → List Order
  | [] => [x]
  | y :: ys => if y.order_date ≤ x.order_date then x :: y :: ys else y :: insertGeDate x ys

/-- ORDER BY order_date descending, as a stable insertion sort. -/
def sortByDateDesc : List Order → List Order
  | [] => []
  | x :: xs => insertGeDate x (sortByDateDesc xs)

/-- The six valid status filter values (orders.py line 192). -/
def validStatusValues : List String := OrderStatus.all.map OrderStatus.value

/-- Python attribute access HTTP_400_BAD_REQUEST on the query parameter
named status, a str that shadows the imported fastapi status module
(orders.py line 195): a str has no such attribute, so this raises
AttributeError instead of producing a status code. -/
def strHTTP400 (_s : String) : Except Err Nat :=
  .error (.attributeError ("\x27str\x27 object has no attribute \x27HTTP_400_BAD_REQUEST\x27"))

/-- get_all_orders, orders.py lines 175-236 (admin gate already passed).
The response shaping into AdminOrderResponse rows is omitted; the result is
the selected, ordered orders. A non-empty filter value is validated against
the six statuses, but the failure branch evaluates
status.HTTP_400_BAD_REQUEST on the str parameter, which raises. -/
def get_all_orders (db : DB) (statusFilter : Option String) : Except Err (List Order) :=
  let s := statusFilter.getD ""
  if s != "" then
    if validStatusValues.contains s then
      .ok (sortByDateDesc (db.orders.filter (fun o => o.status.value == s)))
    else
      match strHTTP400 s with
      | .error e => .error e
      | .ok code => .error (.http code ("Invalid status. Must be one of: " ++
          String.intercalate ", " validStatusValues))
  else
    .ok (sortByDateDesc db.orders)

/-- schemas.py OrderStatusUpdate. -/
structure OrderStatusUpdate where
  status : String
  admin_notes : Option String := none
deriving DecidableEq, Repr

/-- Admin-note update rule of update_order_status (orders.py lines 323-328):
nothing happens unless the submitted note is truthy; an empty existing notes
field counts as absent; otherwise the new note is appended on its own line
prefixed by the acting admin's nickname. -/
def appendAdminNote (existing : Option String) (adminNick : String) (note : Option String) :
    Option String :=
  match note with
  | none => existing
  | some n =>
    if n == "" then existing
    else
      let line := "[" ++ adminNick ++ "]: " ++ n
      if (existing.getD "") == "" then some line
      else some ((existing.getD "") ++ "\n" ++ line)

/-- update_order_status, orders.py lines 292-358 (admin gate already
passed). The pydantic validator on OrderStatusUpdate.status (schemas.py
lines 281-289) rejects a value outside the six statuses before the handler
runs; then the order is loaded by id, its status is set, the admin note is
appended per appendAdminNote, and the row's update timestamp changes. -/
def update_order_status (db : DB) (adminNick : String) (orderId : Nat)
    (upd : OrderStatusUpdate) (now : Nat) : Except Err (DB × Order) :=
  match OrderStatus.ofValue upd.status with
  | none => .error (.http 422 ("Status must be one of: " ++
      String.intercalate ", " validStatusValues))
  | some st =>
    match db.orders.find? (fun o => o.id == orderId) with
    | none => .error (.http 404 ("Order not found"))
    | some o =>
      let o2 : Order :=
        { o with status := st,
                 admin_notes := appendAdminNote o.admin_notes adminNick upd.admin_notes,
                 updated_at := now }
      .ok ({ db with orders := db.orders.map (fun x => if x.id == orderId then o2 else x) }, o2)

/-- UTF-8 truncation to the 72-byte bcrypt limit (auth_utils.py lines 21 and
43); a password is modelled by its UTF-8 byte sequence. -/
def truncate72 (pw : List Nat) : List Nat := pw.take 72

/-- hash_password, auth_utils.py lines 7-28: truncate, then call the
external bcrypt.hashpw primitive with a generated salt. -/
def hash_password (bcryptHashpw : List Nat → Nat → String) (salt : Nat) (pw : List Nat) :
    String :=
  bcryptHashpw (truncate72 pw) salt

/-- verify_password, auth_utils.py lines 31-46: truncate identically, then
call the external bcrypt.checkpw primitive. -/
def verify_password (bcryptCheckpw : List Nat → String → Bool) (pw : List Nat)
    (hashed : String) : Bool :=
  bcryptCheckpw (truncate72 pw) hashed

/-- schemas.py UserRegister: the registration input. It has no role field. -/
structure UserRegister where
  email : String
  nickname : String
  password : String
  password_confirm : String
  street_address : Option String := none
  city : Option String := none
  postal_code : Option String := none
  country : Option String := none
  payment_method : Option String := none
deriving DecidableEq, Repr

/-- register, auth.py lines 18-64. hashFn stands for hash_password with its
randomly generated salt fixed. The new row's role is the literal
UserRole.CUSTOMER. -/
def register (db : DB) (hashFn : String → String) (d : UserRegister) (now : Nat) :
    Except Err (DB × User) :=
  match db.users.find? (fun u => u.email == d.email) with
  | some _ => .error (.http 400 ("Email already registered"))
  | none =>
    match db.users.find? (fun u => u.nickname == d.nickname) with
    | some _ => .error (.http 400 ("Nickname already taken"))
    | none =>
      let newUser : User :=
        { id := db.nextUserId, email := d.email, nickname := d.nickname,
          password_hash := hashFn d.password, role := .customer,
          street_address := d.street_address, city := d.city,
          postal_code := d.postal_code, country := d.country,
          payment_method := d.payment_method, created_at := now, updated_at := now }
      .ok ({ db with
              users := db.users ++ [newUser],
              nextUserId := db.nextUserId + 1 }, newUser)

/-! Helper lemmas on the embedded operations. -/

lemma mem_insertLeCreated {a x : CartItem} {l : List CartItem} :
    a ∈ insertLeCreated x l ↔ a = x ∨ a ∈ l := by
  induction l with
  | nil => simp [insertLeCreated]
  | cons y ys ih =>
    by_cases h : x.created_at ≤ y.created_at
    · simp [insertLeCreated, h]
    · simp [insertLeCreated, h, ih]
      tauto

lemma mem_sortByCreated {a : CartItem} {l : List CartItem} :
    a ∈ sortByCreated l ↔ a ∈ l := by
  induction l with
  | nil => simp [sortByCreated]
  | cons x xs ih => simp [sortByCreated, mem_insertLeCreated, ih]

lemma insertLeCreated_ne_nil (x : CartItem) (l : List CartItem) :
    insertLeCreated x l ≠ [] := by
  cases l with
  | nil => simp [insertLeCreated]
  | cons y ys =>
    by_cases h : x.created_at ≤ y.created_at <;> simp [insertLeCreated, h]

lemma sortByCreated_eq_nil {l : List CartItem} :
    sortByCreated l = [] ↔ l = [] := by
  cases l with
  | nil => simp [sortByCreated]
  | cons x xs => simp [sortByCreated, insertLeCreated_ne_nil]

/-! C4 — idempotent cart deletion, cart.py lines 176-219. -/

/-- C4 counterexample: removing a cart-item id that does not exist (here on
an empty store) does not succeed silently — remove_cart_item raises 404
"Cart item not found", so the removeItem half of the claim is false. -/
theorem remove_missing_cart_item_errors :
    remove_cart_item { } 1 1 = .error (.http 404 ("Cart item not found")) := by rfl

/-- C4 (amended): removeItem on a cart-item id that matches no line of the
caller fails with NotFound (it is not an idempotent no-op), while clearCart
on an already-empty cart succeeds with no error and leaves the store
unchanged; both operations leave every other user's cart lines untouched. -/
theorem cart_delete_scoped (db : DB) (userId cartItemId : Nat) :
    (db.cartItems.find? (fun ci => ci.id == cartItemId && ci.user_id == userId) = none →
      remove_cart_item db userId cartItemId = .error (.http 404 ("Cart item not found"))) ∧
    (db.cartItems.filter (fun ci => ci.user_id == userId) = [] →
      clear_cart db userId = .ok db) ∧
    (∀ db2, clear_cart db userId = .ok db2 → ∀ v, v ≠ userId →
      db2.cartItems.filter (fun ci => ci.user_id == v) =
        db.cartItems.filter (fun ci => ci.user_id == v)) ∧
    (∀ db2, remove_cart_item db userId cartItemId = .ok db2 →
      (db.cartItems.map (fun ci => ci.id)).Nodup → ∀ v, v ≠ userId →
      db2.cartItems.filter (fun ci => ci.user_id == v) =
        db.cartItems.filter (fun ci => ci.user_id == v)) := by
  refine ⟨fun h => ?_, fun h => ?_, fun db2 h v hv => ?_, fun db2 h hnd v hv => ?_⟩
  · simp [remove_cart_item, h]
  · have hall : ∀ ci ∈ db.cartItems, (ci.user_id != userId) = true := by
      intro ci hci
      have := (List.filter_eq_nil_iff.mp h) ci hci
      simpa using this
    have : db.cartItems.filter (fun ci => ci.user_id != userId) = db.cartItems :=
      List.filter_eq_self.mpr hall
    simp [clear_cart, this]
  · have hdb2 : db2 = { db with cartItems := db.cartItems.filter (fun ci => ci.user_id != userId) } := by
      simpa [clear_cart] using h.symm
    subst hdb2
    simp only [List.filter_filter]
    apply List.filter_congr
    intro ci _
    by_cases hc : ci.user_id = v
    · simp [hc]
      exact hv
    · simp [hc]
  · rcases hfind : db.cartItems.find? (fun ci => ci.id == cartItemId && ci.user_id == userId) with _ | ci0
    · simp [remove_cart_item, hfind] at h
    · have hmem : ci0 ∈ db.cartItems := List.mem_of_find?_eq_some hfind
      have hpred := List.find?_some hfind
      have howner : ci0.user_id = userId := by
        simp only [Bool.and_eq_true, beq_iff_eq] at hpred
        exact hpred.2
      have hdb2 : db2 = { db with cartItems := db.cartItems.filter (fun c => c.id != ci0.id) } := by
        simpa [remove_cart_item, hfind] using h.symm
      subst hdb2
      simp only [List.filter_filter]
      apply List.filter_congr
      intro ci hci
      by_cases hc : ci.user_id = v
      · have : ci.id ≠ ci0.id := by
          intro hid
          have : ci = ci0 := List.inj_on_of_nodup_map hnd hci hmem (by simpa using hid)
          rw [this, howner] at hc
          exact hv hc.symm
        simp [hc, this]
      · simp [hc]

/-- Concrete store for the C4 witness: two users, one cart line each. -/
def wCartDb : DB :=
  { cartItems := [⟨1, 1, 5, 2, none, 1, 1⟩, ⟨2, 2, 5, 1, none, 1, 1⟩],
    nextCartItemId := 3 }

/-- C4 witness: the amended theorem applied to the concrete store. -/
theorem cart_delete_scoped_witness :
    remove_cart_item wCartDb 1 99 = .error (.http 404 ("Cart item not found")) ∧
    clear_cart wCartDb 3 = .ok wCartDb :=
  ⟨(cart_delete_scoped wCartDb 1 99).1 (by decide),
   (cart_delete_scoped wCartDb 3 0).2.1 (by decide)⟩

/-! C3 — cart-line merge, cart.py lines 68-130. -/

/-- The caller's existing cart lines for one product, as selected by
add_to_cart's merge lookup (cart.py lines 96-101). -/
def cartLinesFor (db : DB) (userId pid : Nat) : List CartItem :=
  db.cartItems.filter (fun ci => ci.user_id == userId && ci.product_id == pid)

/-- Product 5 of the C3 stores. -/
def cProduct : Product :=
  { id := 5, title := "Widget", base_price := 10, stock_quantity := 10, is_active := true }

/-- A size-M cart line for product 5. -/
def cLineM : CartItem :=
  { id := 1, user_id := 1, product_id := 5, quantity := 3,
    selected_options := some [("size", "M")], created_at := 1, updated_at := 1 }

/-- A size-L cart line for product 5, same user. -/
def cLineL : CartItem :=
  { id := 2, user_id := 1, product_id := 5, quantity := 2,
    selected_options := some [("size", "L")], created_at := 2, updated_at := 2 }

/-- Store in which user 1 already has two coexisting lines for product 5. -/
def cDb : DB := { products := [cProduct], cartItems := [cLineM, cLineL], nextCartItemId := 3 }

/-- C3 counterexample: once a user holds two lines for the same product
(which the claim itself says coexist independently), a further addItem for
that product neither increments a line nor inserts a new one — the merge
lookup uses scalar_one_or_none, which raises MultipleResultsFound on the two
rows and aborts the request. -/
theorem add_to_cart_two_lines_error :
    add_to_cart cDb 1 { product_id := 5, quantity := 1, selected_options := some [("size", "M")] } 9 =
      .error .multipleResults := by rfl

lemma add_to_cart_merge_case (db : DB) (userId now : Nat) (d : CartItemCreate)
    (p : Product) (e : CartItem)
    (hp : db.products.find? (fun q => q.id == d.product_id) = some p)
    (hact : p.is_active = true)
    (hline : cartLinesFor db userId d.product_id = [e])
    (heq : e.selected_options = d.selected_options) :
    add_to_cart db userId d now = .ok
      ({ db with cartItems := db.cartItems.map (fun ci =>
          if ci.id == e.id then
            { e with quantity := e.quantity + d.quantity, updated_at := now }
          else ci) },
       { e with quantity := e.quantity + d.quantity, updated_at := now }) := by
  unfold cartLinesFor at hline
  simp only [add_to_cart, hp, hact]
  rw [hline]
  simp [scalarOneOrNone, heq]

lemma add_to_cart_insert_sole (db : DB) (userId now : Nat) (d : CartItemCreate)
    (p : Product) (e : CartItem)
    (hp : db.products.find? (fun q => q.id == d.product_id) = some p)
    (hact : p.is_active = true)
    (hline : cartLinesFor db userId d.product_id = [e])
    (hne : e.selected_options ≠ d.selected_options) :
    add_to_cart db userId d now = .ok
      ({ db with
          cartItems := db.cartItems ++ [newCartLine db userId d now],
          nextCartItemId := db.nextCartItemId + 1 },
       newCartLine db userId d now) := by
  unfold cartLinesFor at hline
  simp only [add_to_cart, hp, hact]
  rw [hline]
  have hcond : (e.selected_options == d.selected_options) = false := by
    simpa using hne
  simp [scalarOneOrNone, hcond, addNewCartItem]

lemma add_to_cart_insert_empty (db : DB) (userId now : Nat) (d : CartItemCreate)
    (p : Product)
    (hp : db.products.find? (fun q => q.id == d.product_id) = some p)
    (hact : p.is_active = true)
    (h0 : cartLinesFor db userId d.product_id = []) :
    add_to_cart db userId d now = .ok
      ({ db with
          cartItems := db.cartItems ++ [newCartLine db userId d now],
          nextCartItemId := db.nextCartItemId + 1 },
       newCartLine db userId d now) := by
  unfold cartLinesFor at h0
  simp only [add_to_cart, hp, hact]
  rw [h0]
  rfl

/-- C3 (amended): provided the caller holds at most one existing cart line
for the product (with two or more, the merge lookup raises
MultipleResultsFound instead), addItem on an existing, active product
increments the quantity of an options-equal existing line, creating no new
line, and otherwise appends a fresh independent line; consequently adding
the same product twice with identical options and quantities q1 and q2
leaves one line of quantity q1+q2, and two adds with different options leave
two independent lines. -/
theorem add_to_cart_merge_or_insert (db : DB) (userId now : Nat) (d : CartItemCreate)
    (p : Product)
    (hp : db.products.find? (fun q => q.id == d.product_id) = some p)
    (hact : p.is_active = true) :
    (∀ e, cartLinesFor db userId d.product_id = [e] →
      e.selected_options = d.selected_options →
      add_to_cart db userId d now = .ok
        ({ db with cartItems := db.cartItems.map (fun ci =>
            if ci.id == e.id then
              { e with quantity := e.quantity + d.quantity, updated_at := now }
            else ci) },
         { e with quantity := e.quantity + d.quantity, updated_at := now })) ∧
    (∀ e, cartLinesFor db userId d.product_id = [e] →
      e.selected_options ≠ d.selected_options →
      add_to_cart db userId d now = .ok
        ({ db with
            cartItems := db.cartItems ++ [newCartLine db userId d now],
            nextCartItemId := db.nextCartItemId + 1 },
         newCartLine db userId d now)) ∧
    (cartLinesFor db userId d.product_id = [] →
      add_to_cart db userId d now = .ok
        ({ db with
            cartItems := db.cartItems ++ [newCartLine db userId d now],
            nextCartItemId := db.nextCartItemId + 1 },
         newCartLine db userId d now)) ∧
    (cartLinesFor db userId d.product_id = [] →
      (∀ ci ∈ db.cartItems, ci.id ≠ db.nextCartItemId) →
      ∀ d2 : CartItemCreate, d2.product_id = d.product_id →
      d2.selected_options = d.selected_options →
      ∀ db1 r1 now2 db2 r2,
        add_to_cart db userId d now = .ok (db1, r1) →
        add_to_cart db1 userId d2 now2 = .ok (db2, r2) →
        ∃ e, cartLinesFor db2 userId d.product_id = [e] ∧
          e.quantity = d.quantity + d2.quantity ∧
          e.selected_options = d.selected_options) ∧
    (cartLinesFor db userId d.product_id = [] →
      ∀ d2 : CartItemCreate, d2.product_id = d.product_id →
      d2.selected_options ≠ d.selected_options →
      ∀ db1 r1 now2 db2 r2,
        add_to_cart db userId d now = .ok (db1, r1) →
        add_to_cart db1 userId d2 now2 = .ok (db2, r2) →
        ∃ e1 e2, cartLinesFor db2 userId d.product_id = [e1, e2] ∧
          e1.quantity = d.quantity ∧ e1.selected_options = d.selected_options ∧
          e2.quantity = d2.quantity ∧ e2.selected_options = d2.selected_options) := by
  refine ⟨fun e he heq => add_to_cart_merge_case db userId now d p e hp hact he heq,
          fun e he hne => add_to_cart_insert_sole db userId now d p e hp hact he hne,
          add_to_cart_insert_empty db userId now d p hp hact,
          ?_, ?_⟩
  · intro h0 hfresh d2 hpid hopts db1 r1 now2 db2 r2 hadd1 hadd2
    rw [add_to_cart_insert_empty db userId now d p hp hact h0] at hadd1
    obtain ⟨hdb1, hr1⟩ := Prod.mk.inj (Except.ok.inj hadd1)
    have hcart1 : db1.cartItems = db.cartItems ++ [newCartLine db userId d now] := by
      rw [← hdb1]
    have hpX : db1.products.find? (fun q => q.id == d2.product_id) = some p := by
      rw [← hdb1, hpid]
      exact hp
    have hlineX : cartLinesFor db1 userId d2.product_id = [newCartLine db userId d now] := by
      unfold cartLinesFor at h0 ⊢
      rw [hcart1, hpid, List.filter_append, h0]
      simp [newCartLine]
    have heqX : (newCartLine db userId d now).selected_options = d2.selected_options := by
      simp [newCartLine, hopts]
    rw [add_to_cart_merge_case db1 userId now2 d2 p (newCartLine db userId d now)
      hpX hact hlineX heqX] at hadd2
    obtain ⟨hdb2, hr2⟩ := Prod.mk.inj (Except.ok.inj hadd2)
    refine ⟨{ newCartLine db userId d now with
        quantity := (newCartLine db userId d now).quantity + d2.quantity,
        updated_at := now2 }, ?_, by simp [newCartLine], by simp [newCartLine]⟩
    rw [← hdb2]
    unfold cartLinesFor at h0 ⊢
    show (db1.cartItems.map _).filter _ = _
    rw [hcart1, List.map_append]
    have hmapid : db.cartItems.map (fun ci =>
        if ci.id == (newCartLine db userId d now).id then
          { newCartLine db userId d now with
              quantity := (newCartLine db userId d now).quantity + d2.quantity,
              updated_at := now2 }
        else ci) = db.cartItems := by
      conv_rhs => rw [← List.map_id db.cartItems]
      apply List.map_congr_left
      intro ci hci
      have hid : (ci.id == (newCartLine db userId d now).id) = false := by
        simp only [newCartLine]
        simpa using hfresh ci hci
      simp [hid]
    rw [hmapid]
    simp only [List.map_cons, List.map_nil]
    rw [if_pos (by simp)]
    rw [List.filter_append, h0]
    simp [newCartLine]
  · intro h0 d2 hpid hopts db1 r1 now2 db2 r2 hadd1 hadd2
    rw [add_to_cart_insert_empty db userId now d p hp hact h0] at hadd1
    obtain ⟨hdb1, hr1⟩ := Prod.mk.inj (Except.ok.inj hadd1)
    have hcart1 : db1.cartItems = db.cartItems ++ [newCartLine db userId d now] := by
      rw [← hdb1]
    have hpX : db1.products.find? (fun q => q.id == d2.product_id) = some p := by
      rw [← hdb1, hpid]
      exact hp
    have hlineX : cartLinesFor db1 userId d2.product_id = [newCartLine db userId d now] := by
      unfold cartLinesFor at h0 ⊢
      rw [hcart1, hpid, List.filter_append, h0]
      simp [newCartLine]
    have hneX : (newCartLine db userId d now).selected_options ≠ d2.selected_options := by
      simp only [newCartLine]
      exact fun h => hopts h.symm
    rw [add_to_cart_insert_sole db1 userId now2 d2 p (newCartLine db userId d now)
      hpX hact hlineX hneX] at hadd2
    obtain ⟨hdb2, hr2⟩ := Prod.mk.inj (Except.ok.inj hadd2)
    refine ⟨newCartLine db userId d now, newCartLine db1 userId d2 now2,
      ?_, by simp [newCartLine], by simp [newCartLine],
      by simp [newCartLine], by simp [newCartLine]⟩
    rw [← hdb2]
    unfold cartLinesFor at h0 ⊢
    show ((db1.cartItems ++ [newCartLine db1 userId d2 now2]).filter _) = _
    rw [hcart1, List.filter_append, List.filter_append, h0]
    simp [newCartLine, hpid]

/-- Concrete store for the C3 witness: product 5 active, empty cart. -/
def wAddDb : DB := { products := [cProduct] }

/-- C3 witness: the amended theorem applied at the empty-cart case. -/
theorem add_to_cart_merge_or_insert_witness :
    add_to_cart wAddDb 1 { product_id := 5, quantity := 3 } 4 = .ok
      ({ wAddDb with
          cartItems := wAddDb.cartItems ++ [newCartLine wAddDb 1 { product_id := 5, quantity := 3 } 4],
          nextCartItemId := wAddDb.nextCartItemId + 1 },
       newCartLine wAddDb 1 { product_id := 5, quantity := 3 } 4) :=
  (add_to_cart_merge_or_insert wAddDb 1 4 { product_id := 5, quantity := 3 } cProduct
    (by rfl) (by rfl)).2.2.1 (by rfl)

/-! C9 — getCart joins, silent omission of deleted products, subtotal. -/

/-- The response entries get_cart is specified to return: the caller's cart
lines newest first, each joined to its surviving product, with lines whose
product was deleted dropped. -/
def joinedEntries (db : DB) (userId : Nat) : List CartEntry :=
  (sortByCreatedDesc (db.cartItems.filter (fun ci => ci.user_id == userId))).filterMap
    (fun ci => (db.products.find? (fun p => p.id == ci.product_id)).map (entryOf ci))

lemma getCart_foldl (db : DB) (L : List CartItem) (acc : List CartEntry) (sub : Rat) :
    L.foldl (getCartStep db) (acc, sub) =
      (acc ++ L.filterMap
        (fun ci => (db.products.find? (fun p => p.id == ci.product_id)).map (entryOf ci)),
       sub + ((L.filterMap
        (fun ci => (db.products.find? (fun p => p.id == ci.product_id)).map (entryOf ci))).map
          (fun e => e.product.base_price * (e.quantity : Rat))).sum) := by
  induction L generalizing acc sub with
  | nil => simp
  | cons ci rest ih =>
    rcases h : db.products.find? (fun p => p.id == ci.product_id) with _ | p
    · simp only [List.foldl_cons, List.filterMap_cons, getCartStep, h, Option.map_none']
      rw [ih]
    · simp only [List.foldl_cons, List.filterMap_cons, getCartStep, h, Option.map_some']
      rw [ih]
      simp [entryOf, add_assoc]

/-- C9: get_cart returns one entry per cart line whose product still exists,
joined to the current product row; lines whose product was deleted are
silently omitted (the operation is total, it never fails); and the reported
subtotal is the sum of current product price times line quantity over the
surviving lines, rounded to 2 decimal places. -/
theorem get_cart_spec (db : DB) (userId : Nat) :
    get_cart db userId =
      { items := joinedEntries db userId,
        total_items := (joinedEntries db userId).length,
        subtotal := pyRound2 (((joinedEntries db userId).map
            (fun e => e.product.base_price * (e.quantity : Rat))).sum) } := by
  unfold get_cart joinedEntries
  rw [getCart_foldl]
  simp

/-! C7 — owner-scoped order retrieval without existence leakage. -/

/-- C7: for an authenticated user, fetching an order succeeds exactly when
an order with that id exists and belongs to the user; in every other case —
the order belongs to someone else or does not exist at all — the result is
the same NotFound failure (never Forbidden), so the two cases are
indistinguishable to the caller. -/
theorem get_order_owner_scoped (db : DB) (userId orderId : Nat) :
    ((get_order db userId orderId).isOk = true ↔
      ∃ o ∈ db.orders, o.id = orderId ∧ o.user_id = userId) ∧
    ((¬ ∃ o ∈ db.orders, o.id = orderId ∧ o.user_id = userId) →
      get_order db userId orderId = .error (.http 404 ("Order not found"))) ∧
    (∀ e, get_order db userId orderId = .error e → e = .http 404 ("Order not found")) := by
  rcases h : db.orders.find? (fun o => o.id == orderId && o.user_id == userId) with _ | o
  · have hnone := List.find?_eq_none.mp h
    refine ⟨?_, ?_, ?_⟩
    · simp only [get_order, h]
      constructor
      · intro hc
        simp [Except.isOk, Except.toBool] at hc
      · rintro ⟨o, ho, h1, h2⟩
        exact absurd (by simp [h1, h2]) (hnone o ho)
    · intro _
      simp [get_order, h]
    · intro e he
      simp only [get_order, h] at he
      exact (Except.error.inj he).symm
  · have hmem := List.mem_of_find?_eq_some h
    have hpred := List.find?_some h
    simp only [Bool.and_eq_true, beq_iff_eq] at hpred
    refine ⟨?_, ?_, ?_⟩
    · simp only [get_order, h]
      constructor
      · intro _
        exact ⟨o, hmem, hpred.1, hpred.2⟩
      · intro _
        simp [Except.isOk, Except.toBool]
    · intro hno
      exact absurd ⟨o, hmem, hpred.1, hpred.2⟩ hno
    · intro e he
      simp [get_order, h] at he

/-- Store for the C7 witness: one order owned by user 1. -/
def wOrderDb : DB :=
  { orders := [{ id := 1, user_id := 1, order_date := 2, status := .pending,
                 subtotal := 5, total := 5 }],
    nextOrderId := 2 }

/-- C7 witness: the theorem applied to the concrete store — user 1 can fetch
order 1, fetching a missing order yields NotFound, and user 2 fetching user
1's order yields the identical NotFound. -/
theorem get_order_owner_scoped_witness :
    (get_order wOrderDb 1 1).isOk = true ∧
    get_order wOrderDb 1 2 = .error (.http 404 ("Order not found")) ∧
    get_order wOrderDb 2 1 = .error (.http 404 ("Order not found")) :=
  ⟨(get_order_owner_scoped wOrderDb 1 1).1.mpr ⟨wOrderDb.orders.head (by decide), by decide, by decide, by decide⟩,
   (get_order_owner_scoped wOrderDb 1 2).2.1 (by decide),
   (get_order_owner_scoped wOrderDb 2 1).2.1 (by decide)⟩

/-! C8 — 72-byte password truncation, auth_utils.py. -/

/-- C8: hash_password and verify_password apply the identical 72-byte UTF-8
truncation before invoking the bcrypt primitive, so whenever two passwords
agree on their first 72 bytes, either verifies against a hash of the other;
in particular every password verifies against its own hash. Quantified over
any bcrypt primitive satisfying the bcrypt round-trip contract. -/
theorem password_truncation_72 (bcryptHashpw : List Nat → Nat → String)
    (bcryptCheckpw : List Nat → String → Bool)
    (hbc : ∀ b salt, bcryptCheckpw b (bcryptHashpw b salt) = true)
    (p1 p2 : List Nat) (salt : Nat) (hpre : p1.take 72 = p2.take 72) :
    verify_password bcryptCheckpw p1 (hash_password bcryptHashpw salt p2) = true ∧
    (∀ pw s, verify_password bcryptCheckpw pw (hash_password bcryptHashpw s pw) = true) ∧
    (∀ pw s, hash_password bcryptHashpw s pw = bcryptHashpw (truncate72 pw) s) ∧
    (∀ pw h, verify_password bcryptCheckpw pw h = bcryptCheckpw (truncate72 pw) h) := by
  refine ⟨?_, fun pw s => ?_, fun pw s => rfl, fun pw h => rfl⟩
  · unfold verify_password hash_password truncate72
    rw [hpre]
    exact hbc _ _
  · exact hbc _ _

/-- First C8 witness password: 72 zero bytes then the byte 1. -/
def wPassword1 : List Nat := List.replicate 72 0 ++ [1]

/-- Second C8 witness password: 72 zero bytes then the byte 2. -/
def wPassword2 : List Nat := List.replicate 72 0 ++ [2]

/-- C8 witness: with a concrete bcrypt stand-in, the two 73-byte passwords
differing only in their last byte verify against each other's hash. -/
theorem password_truncation_72_witness :
    verify_password (fun b h => h == String.intercalate "," (b.map toString)) wPassword1
      (hash_password (fun b _ => String.intercalate "," (b.map toString)) 0 wPassword2) = true :=
  (password_truncation_72 (fun b _ => String.intercalate "," (b.map toString))
    (fun b h => h == String.intercalate "," (b.map toString))
    (fun b salt => by simp) wPassword1 wPassword2 0 (by decide)).1

/-! C10 — public registration always yields a customer. -/

/-- C10: whenever registration succeeds, the stored and returned user has
role customer; the registration input carries no role field, so no input can
create an admin through the public register operation. -/
theorem register_role_customer (db : DB) (hashFn : String → String) (d : UserRegister)
    (now : Nat) (db2 : DB) (u : User)
    (hok : register db hashFn d now = .ok (db2, u)) :
    u.role = .customer ∧ db2.users = db.users ++ [u] := by
  unfold register at hok
  rcases h1 : db.users.find? (fun x => x.email == d.email) with _ | _
  · rcases h2 : db.users.find? (fun x => x.nickname == d.nickname) with _ | _
    · rw [h1, h2] at hok
      obtain ⟨hdb2, hu⟩ := Prod.mk.inj (Except.ok.inj hok)
      constructor
      · rw [← hu]
      · rw [← hdb2, ← hu]
    · rw [h1, h2] at hok
      exact absurd hok (by simp)
  · rw [h1] at hok
    exact absurd hok (by simp)

/-- C10 witness: a concrete successful registration on an empty store. -/
theorem register_role_customer_witness :
    ({ id := 1, email := "a@b.com", nickname := "alice",
       password_hash := "h:password1", role := .customer,
       created_at := 3, updated_at := 3 } : User).role = UserRole.customer :=
  (register_role_customer { } (fun s => "h:" ++ s)
    { email := "a@b.com", nickname := "alice",
      password := "password1", password_confirm := "password1" } 3
    { users := [{ id := 1, email := "a@b.com", nickname := "alice",
                  password_hash := "h:password1", role := .customer,
                  created_at := 3, updated_at := 3 }],
      nextUserId := 2 }
    { id := 1, email := "a@b.com", nickname := "alice",
      password_hash := "h:password1", role := .customer,
      created_at := 3, updated_at := 3 }
    (by rfl)).1

/-! C5 — admin order-list status filter, orders.py lines 175-203. -/

/-- An order of user 1, Pending, dated 5. -/
def aOrder1 : Order :=
  { id := 1, user_id := 1, order_date := 5, status := .pending, subtotal := 10, total := 10 }

/-- An order of user 2, Delivered, dated 7. -/
def aOrder2 : Order :=
  { id := 2, user_id := 2, order_date := 7, status := .delivered, subtotal := 8, total := 8 }

/-- Store for the C5 evaluation. -/
def aDb : DB := { orders := [aOrder1, aOrder2], nextOrderId := 3 }

/-- C5: evaluating get_all_orders at the failing input. A filter value
outside the six statuses does not produce the intended 400 constraint
violation: the query parameter named status shadows the imported fastapi
status module, so the handler evaluates HTTP_400_BAD_REQUEST on a str and
dies with AttributeError (an internal server error). A valid filter works as
specified: exactly the orders with that status, newest order_date first. -/
theorem get_all_orders_shadowed_status :
    get_all_orders aDb (some "Shipped") =
      .error (.attributeError ("\x27str\x27 object has no attribute \x27HTTP_400_BAD_REQUEST\x27")) ∧
    get_all_orders aDb (some "Pending") = .ok [aOrder1] ∧
    get_all_orders aDb none = .ok [aOrder2, aOrder1] := by decide

/-! C6 — admin status update frame and note append, orders.py lines 292-331. -/

/-- The order updated in the C6 counterexample. -/
def nOrder : Order :=
  { id := 3, user_id := 1, order_date := 4, status := .pending, subtotal := 5, total := 5,
    customer_notes := some "ring twice", updated_at := 4 }

/-- Store for the C6 counterexample. -/
def nDb : DB := { orders := [nOrder], nextOrderId := 4 }

/-- The status update of the C6 counterexample. -/
def nUpd : OrderStatusUpdate := { status := "Confirmed", admin_notes := some "check" }

/-- C6 counterexample: the appended admin note is exactly the nickname
prefix plus the note text, with no timestamp — the result is byte-identical
for two different clock values, so the note cannot embed the time the claim
says it carries (only the row's updated_at changes). -/
theorem update_order_status_note_untimestamped :
    (update_order_status nDb "bob" 3 nUpd 111).map (fun r => r.2.admin_notes) =
      .ok (some "[bob]: check") ∧
    (update_order_status nDb "bob" 3 nUpd 111).map (fun r => r.2.admin_notes) =
      (update_order_status nDb "bob" 3 nUpd 222).map (fun r => r.2.admin_notes) := by decide

/-- C6 (amended): an admin status update of an existing order changes only
the status, the admin notes and the update timestamp; every other field is
untouched, and so is every other row. When a (non-empty) note is supplied,
existing non-empty notes are preserved and the new note is appended on its
own line prefixed by the acting admin's nickname — but not timestamped; when
no note is supplied the notes field is unchanged. -/
theorem update_order_status_frame (db : DB) (adminNick : String) (orderId now : Nat)
    (upd : OrderStatusUpdate) (o : Order) (st : OrderStatus)
    (hst : OrderStatus.ofValue upd.status = some st)
    (ho : db.orders.find? (fun x => x.id == orderId) = some o) :
    ∃ o2, update_order_status db adminNick orderId upd now =
        .ok ({ db with orders := db.orders.map (fun x => if x.id == orderId then o2 else x) }, o2) ∧
      o2.id = o.id ∧ o2.user_id = o.user_id ∧ o2.order_date = o.order_date ∧
      o2.shipping_street = o.shipping_street ∧ o2.shipping_city = o.shipping_city ∧
      o2.shipping_postal_code = o.shipping_postal_code ∧
      o2.shipping_country = o.shipping_country ∧
      o2.subtotal = o.subtotal ∧ o2.tax = o.tax ∧
      o2.shipping_cost = o.shipping_cost ∧ o2.total = o.total ∧
      o2.customer_notes = o.customer_notes ∧
      o2.status = st ∧ o2.updated_at = now ∧
      o2.admin_notes = appendAdminNote o.admin_notes adminNick upd.admin_notes ∧
      (upd.admin_notes = none → o2.admin_notes = o.admin_notes) ∧
      (∀ n, upd.admin_notes = some n → n ≠ "" → ∀ ex, o.admin_notes = some ex → ex ≠ "" →
        o2.admin_notes = some (ex ++ "\n" ++ ("[" ++ adminNick ++ "]: " ++ n))) ∧
      (∀ n, upd.admin_notes = some n → n ≠ "" → o.admin_notes = none →
        o2.admin_notes = some ("[" ++ adminNick ++ "]: " ++ n)) := by
  refine ⟨{ o with
      status := st,
      admin_notes := appendAdminNote o.admin_notes adminNick upd.admin_notes,
      updated_at := now }, ?_, rfl, rfl, rfl, rfl, rfl, rfl, rfl, rfl, rfl, rfl, rfl, rfl,
      rfl, rfl, rfl, ?_, ?_, ?_⟩
  · simp only [update_order_status, hst, ho]
  · intro hn
    simp [appendAdminNote, hn]
  · intro n hn hne ex hex hexne
    simp only [appendAdminNote, hn, hex]
    rw [if_neg (by simpa using hne), Option.getD_some]
    rw [if_neg (by simpa using hexne)]
  · intro n hn hne hnone
    simp only [appendAdminNote, hn, hnone]
    rw [if_neg (by simpa using hne)]
    simp

/-- C6 witness: the amended theorem applied to the concrete store. -/
theorem update_order_status_frame_witness :
    ∃ o2, update_order_status nDb "bob" 3 nUpd 111 =
        .ok ({ nDb with orders := nDb.orders.map (fun x => if x.id == 3 then o2 else x) }, o2) ∧
      o2.id = nOrder.id ∧ o2.user_id = nOrder.user_id ∧ o2.order_date = nOrder.order_date ∧
      o2.shipping_street = nOrder.shipping_street ∧ o2.shipping_city = nOrder.shipping_city ∧
      o2.shipping_postal_code = nOrder.shipping_postal_code ∧
      o2.shipping_country = nOrder.shipping_country ∧
      o2.subtotal = nOrder.subtotal ∧ o2.tax = nOrder.tax ∧
      o2.shipping_cost = nOrder.shipping_cost ∧ o2.total = nOrder.total ∧
      o2.customer_notes = nOrder.customer_notes ∧
      o2.status = OrderStatus.confirmed ∧ o2.updated_at = 111 ∧
      o2.admin_notes = appendAdminNote nOrder.admin_notes "bob" nUpd.admin_notes ∧
      (nUpd.admin_notes = none → o2.admin_notes = nOrder.admin_notes) ∧
      (∀ n, nUpd.admin_notes = some n → n ≠ "" → ∀ ex, nOrder.admin_notes = some ex → ex ≠ "" →
        o2.admin_notes = some (ex ++ "\n" ++ ("[" ++ "bob" ++ "]: " ++ n))) ∧
      (∀ n, nUpd.admin_notes = some n → n ≠ "" → nOrder.admin_notes = none →
        o2.admin_notes = some ("[" ++ "bob" ++ "]: " ++ n)) :=
  update_order_status_frame nDb "bob" 3 111 nUpd nOrder .confirmed (by decide) (by decide)

/-! C1 and C2 — the checkout transaction, orders.py lines 16-129. -/

/-- The caller's cart lines in checkout's processing order (SELECT of
CartItems for the user ORDER BY created_at). -/
def userCartSorted (db : DB) (userId : Nat) : List CartItem :=
  sortByCreated (db.cartItems.filter (fun ci => ci.user_id == userId))

/-- C1's per-line failure condition against a products table: the referenced
product is missing, inactive, or stocks less than the requested quantity. -/
def productFailureB (ps : List Product) (ci : CartItem) : Bool :=
  match ps.find? (fun p => p.id == ci.product_id) with
  | none => true
  | some p => !p.is_active || decide (p.stock_quantity < ci.quantity)

lemma decStock_id (p : Product) (pid : Nat) (q : Int) :
    (if p.id == pid then { p with stock_quantity := p.stock_quantity - q } else p).id = p.id := by
  by_cases h : (p.id == pid) = true <;> simp [h]

lemma find?_cons_bool {α : Type} (p : α → Bool) (a : α) (l : List α) :
    (a :: l).find? p = if p a then some a else l.find? p := by
  by_cases h : p a = true
  · rw [if_pos h]
    exact List.find?_cons_of_pos l h
  · rw [if_neg h]
    exact List.find?_cons_of_neg l h

lemma find?_decStock (ps : List Product) (pid : Nat) (q : Int) (x : Nat) :
    (decStock ps pid q).find? (fun p => p.id == x) =
      (ps.find? (fun p => p.id == x)).map
        (fun p => if p.id == pid then { p with stock_quantity := p.stock_quantity - q } else p) := by
  induction ps with
  | nil => rfl
  | cons p ps ih =>
    simp only [decStock, List.map_cons] at ih ⊢
    rw [find?_cons_bool (fun p2 => p2.id == x)
          (if p.id == pid then { p with stock_quantity := p.stock_quantity - q } else p)
          (ps.map (fun p2 =>
            if p2.id == pid then { p2 with stock_quantity := p2.stock_quantity - q } else p2)),
        find?_cons_bool (fun p2 => p2.id == x) p ps]
    by_cases h : (p.id == x) = true
    · rw [decStock_id p pid q, if_pos h, if_pos h, Option.map_some']
    · rw [decStock_id p pid q, if_neg h, if_neg h]
      exact ih

lemma productFailureB_decStock (ps : List Product) (pid : Nat) (q : Int) (hq : 0 ≤ q)
    (ci : CartItem) (h : productFailureB ps ci = true) :
    productFailureB (decStock ps pid q) ci = true := by
  unfold productFailureB at h ⊢
  rw [find?_decStock]
  rcases hf : ps.find? (fun p => p.id == ci.product_id) with _ | p
  · rw [hf]
    rfl
  · rw [hf] at h
    rw [hf]
    simp only [Option.map_some']
    simp only [Bool.or_eq_true, Bool.not_eq_true', decide_eq_true_eq] at h
    by_cases hid : (p.id == pid) = true
    · simp only [hid, if_true]
      simp only [Bool.or_eq_true, Bool.not_eq_true', decide_eq_true_eq]
      rcases h with h1 | h2
      · exact Or.inl h1
      · exact Or.inr (by omega)
    · simp only [hid]
      simp only [Bool.or_eq_true, Bool.not_eq_true', decide_eq_true_eq, if_false]
      exact h

lemma processCartItems_fails (L : List CartItem) :
    ∀ ps : List Product, (∀ ci ∈ L, 0 ≤ ci.quantity) →
    ∀ ci0 ∈ L, productFailureB ps ci0 = true →
    ∃ m, processCartItems ps L = .error (.http 400 m) := by
  induction L with
  | nil =>
    intro ps _ ci0 hmem _
    exact absurd hmem (List.not_mem_nil ci0)
  | cons ci rest ih =>
    intro ps hq ci0 hmem hfail
    rcases hf : ps.find? (fun p => p.id == ci.product_id) with _ | p
    · refine ⟨"Product " ++ toString ci.product_id ++ " not found", ?_⟩
      simp only [processCartItems, hf]
    · by_cases hact : p.is_active = false
      · refine ⟨"Product \x27" ++ p.title ++ "\x27 is no longer available", ?_⟩
        simp only [processCartItems, hf]
        rw [if_pos hact]
      · by_cases hstk : p.stock_quantity < ci.quantity
        · refine ⟨checkoutStockMsg p, ?_⟩
          simp only [processCartItems, hf]
          rw [if_neg hact, if_pos hstk]
        · have hci0 : ci0 ∈ rest := by
            rcases List.mem_cons.mp hmem with rfl | hmem2
            · exfalso
              unfold productFailureB at hfail
              rw [hf] at hfail
              simp only [Bool.or_eq_true, Bool.not_eq_true', decide_eq_true_eq] at hfail
              rcases hfail with h1 | h2
              · exact hact h1
              · exact hstk h2
            · exact hmem2
          have hfail2 : productFailureB (decStock ps ci.product_id ci.quantity) ci0 = true :=
            productFailureB_decStock ps ci.product_id ci.quantity
              (hq ci (by simp)) ci0 hfail
          obtain ⟨m, hm⟩ := ih (decStock ps ci.product_id ci.quantity)
            (fun cj hj => hq cj (by simp [hj])) ci0 hci0 hfail2
          refine ⟨m, ?_⟩
          simp only [processCartItems, hf]
          rw [if_neg hact, if_neg hstk, hm]

/-- C1: whenever checkout must fail — the caller's cart is empty, or some
cart line references a missing or inactive product or requests more than the
available stock — the whole request fails with a 400 constraint violation
and the transaction rolls back: the store afterwards is exactly the store
before, so no order or order items exist, no stock changed and every cart
line survives. (Quantities are positive by the input schema.) -/
theorem checkout_atomic_on_failure (db : DB) (userId now : Nat)
    (hq : ∀ ci ∈ db.cartItems, 0 ≤ ci.quantity)
    (hfail : db.cartItems.filter (fun ci => ci.user_id == userId) = [] ∨
      ∃ ci ∈ db.cartItems.filter (fun ci => ci.user_id == userId),
        productFailureB db.products ci = true) :
    (∃ msg, checkout db userId now = .error (.http 400 msg)) ∧
    runCheckout db userId now = db := by
  have hmain : ∃ msg, checkout db userId now = .error (.http 400 msg) := by
    rcases hfail with hempty | ⟨ci0, hmem, hfailci⟩
    · refine ⟨"Cart is empty", ?_⟩
      unfold checkout
      rw [hempty]
      rfl
    · have hmemS : ci0 ∈ sortByCreated (db.cartItems.filter (fun ci => ci.user_id == userId)) :=
        mem_sortByCreated.mpr hmem
      have hqS : ∀ ci ∈ sortByCreated (db.cartItems.filter (fun ci => ci.user_id == userId)),
          0 ≤ ci.quantity := fun ci hci =>
        hq ci (List.mem_of_mem_filter (mem_sortByCreated.mp hci))
      obtain ⟨m, hm⟩ := processCartItems_fails _ db.products hqS ci0 hmemS hfailci
      refine ⟨m, ?_⟩
      simp only [checkout]
      have hne : (sortByCreated (db.cartItems.filter (fun ci => ci.user_id == userId))).isEmpty
          = false :=
        List.isEmpty_eq_false.mpr (fun hnil => by rw [hnil] at hmemS; cases hmemS)
      rw [hne, hm]
      rfl
  refine ⟨hmain, ?_⟩
  obtain ⟨m, hm⟩ := hmain
  unfold runCheckout
  rw [hm]

/-- Product of the C1 witness store: stock 7, below the requested 9. -/
def w1Product : Product :=
  { id := 5, title := "Widget", base_price := 10, stock_quantity := 7, is_active := true }

/-- Cart line of the C1 witness store. -/
def w1Line : CartItem :=
  { id := 1, user_id := 1, product_id := 5, quantity := 9, created_at := 1, updated_at := 1 }

/-- Store for the C1 witness. -/
def w1Db : DB := { products := [w1Product], cartItems := [w1Line], nextCartItemId := 2 }

/-- C1 witness: the failing checkout on the concrete store — stock 7 with a
quantity-9 line — errors and leaves the store untouched. -/
theorem checkout_atomic_on_failure_witness :
    (∃ msg, checkout w1Db 1 3 = .error (.http 400 msg)) ∧ runCheckout w1Db 1 3 = w1Db :=
  checkout_atomic_on_failure w1Db 1 3 (by decide) (Or.inr (by decide))

/-- Total quantity a cart-line list demands of one product id. -/
def lineDemand (L : List CartItem) (pid : Nat) : Int :=
  ((L.filter (fun ci => ci.product_id == pid)).map (fun ci => ci.quantity)).sum

/-- The unit price checkout reads for a line (0 when the product is gone —
unreachable under the success hypotheses). -/
def priceAt (ps : List Product) (ci : CartItem) : Rat :=
  match ps.find? (fun p => p.id == ci.product_id) with
  | some p => p.base_price
  | none => 0

/-- The snapshot checkout records for a line (a default when the product is
gone — unreachable under the success hypotheses). -/
def itemDataAt (ps : List Product) (ci : CartItem) : ItemData :=
  match ps.find? (fun p => p.id == ci.product_id) with
  | some p => snapshotOf p ci
  | none => default

/-- The exact-decimal subtotal of a cart against a products table. -/
def cartSubtotal (ps : List Product) (L : List CartItem) : Rat :=
  (L.map (fun ci => priceAt ps ci * (ci.quantity : Rat))).sum

/-- The line's product exists and is active. -/
def productOkB (ps : List Product) (ci : CartItem) : Bool :=
  match ps.find? (fun p => p.id == ci.product_id) with
  | none => false
  | some p => p.is_active

/-- The line's product stocks at least the cart's total demand for it. -/
def stockOkB (ps : List Product) (L : List CartItem) (ci : CartItem) : Bool :=
  match ps.find? (fun p => p.id == ci.product_id) with
  | none => true
  | some p => decide (lineDemand L ci.product_id ≤ p.stock_quantity)

/-- The order row a successful checkout creates: status Pending, zero tax
and shipping, exact-decimal subtotal, total equal to the subtotal. -/
def checkoutOrder (db : DB) (userId now : Nat) : Order :=
  { id := db.nextOrderId, user_id := userId, order_date := now, status := .pending,
    subtotal := cartSubtotal db.products (userCartSorted db userId),
    tax := 0, shipping_cost := 0,
    total := cartSubtotal db.products (userCartSorted db userId),
    updated_at := now }

lemma lineDemand_cons (ci : CartItem) (rest : List CartItem) (pid : Nat) :
    lineDemand (ci :: rest) pid =
      (if ci.product_id == pid then ci.quantity else 0) + lineDemand rest pid := by
  by_cases h : (ci.product_id == pid) = true <;>
    simp [lineDemand, List.filter_cons, h]

lemma lineDemand_nonneg (rest : List CartItem) (pid : Nat)
    (hq : ∀ ci ∈ rest, 0 ≤ ci.quantity) : 0 ≤ lineDemand rest pid := by
  apply List.sum_nonneg
  intro x hx
  obtain ⟨ci, hci, rfl⟩ := List.mem_map.mp hx
  exact hq ci (List.mem_of_mem_filter hci)

lemma priceAt_decStock (ps : List Product) (pid : Nat) (q : Int) (ci : CartItem) :
    priceAt (decStock ps pid q) ci = priceAt ps ci := by
  unfold priceAt
  rw [find?_decStock]
  rcases hf : ps.find? (fun p => p.id == ci.product_id) with _ | p
  · rw [hf]
    rfl
  · rw [hf]
    simp only [Option.map_some']
    by_cases h : (p.id == pid) = true
    · rw [if_pos h]
    · rw [if_neg h]

lemma itemDataAt_decStock (ps : List Product) (pid : Nat) (q : Int) (ci : CartItem) :
    itemDataAt (decStock ps pid q) ci = itemDataAt ps ci := by
  unfold itemDataAt
  rw [find?_decStock]
  rcases hf : ps.find? (fun p => p.id == ci.product_id) with _ | p
  · rw [hf]
    rfl
  · rw [hf]
    simp only [Option.map_some']
    by_cases h : (p.id == pid) = true
    · rw [if_pos h]
      rfl
    · rw [if_neg h]

lemma productOkB_decStock (ps : List Product) (pid : Nat) (q : Int) (ci : CartItem) :
    productOkB (decStock ps pid q) ci = productOkB ps ci := by
  unfold productOkB
  rw [find?_decStock]
  rcases hf : ps.find? (fun p => p.id == ci.product_id) with _ | p
  · rw [hf]
    rfl
  · rw [hf]
    simp only [Option.map_some']
    by_cases h : (p.id == pid) = true
    · rw [if_pos h]
    · rw [if_neg h]

lemma cartSubtotal_decStock (ps : List Product) (pid : Nat) (q : Int) (L : List CartItem) :
    cartSubtotal (decStock ps pid q) L = cartSubtotal ps L := by
  unfold cartSubtotal
  congr 1
  apply List.map_congr_left
  intro cj _
  rw [priceAt_decStock]

lemma stock_map_step (ps : List Product) (ci : CartItem) (rest : List CartItem) :
    (decStock ps ci.product_id ci.quantity).map
      (fun p => { p with stock_quantity := p.stock_quantity - lineDemand rest p.id }) =
    ps.map (fun p => { p with stock_quantity := p.stock_quantity - lineDemand (ci :: rest) p.id }) := by
  unfold decStock
  rw [List.map_map]
  apply List.map_congr_left
  intro p _
  simp only [Function.comp]
  rw [lineDemand_cons]
  by_cases h : (p.id == ci.product_id) = true
  · have hsymm : (ci.product_id == p.id) = true := by
      rw [beq_iff_eq] at h ⊢
      omega
    rw [if_pos h, hsymm]
    simp [sub_sub]
  · have hsymm : (ci.product_id == p.id) = false := by
      rw [beq_eq_false_iff_ne]
      rw [beq_iff_eq] at h
      omega
    rw [if_neg h, hsymm]
    simp

lemma processCartItems_ok (L : List CartItem) :
    ∀ ps : List Product, (∀ ci ∈ L, 0 ≤ ci.quantity) →
    (∀ ci ∈ L, productOkB ps ci = true) →
    (∀ ci ∈ L, stockOkB ps L ci = true) →
    processCartItems ps L = .ok
      (ps.map (fun p => { p with stock_quantity := p.stock_quantity - lineDemand L p.id }),
       cartSubtotal ps L, L.map (itemDataAt ps)) := by
  induction L with
  | nil =>
    intro ps _ _ _
    have hone : ∀ p : Product,
        ({ p with stock_quantity := p.stock_quantity - lineDemand [] p.id } : Product) = p := by
      intro p
      show ({ p with stock_quantity := p.stock_quantity - 0 } : Product) = p
      rw [sub_zero]
    have hmap : ps.map
        (fun p => { p with stock_quantity := p.stock_quantity - lineDemand [] p.id }) = ps :=
      (List.map_congr_left (fun a _ => hone a)).trans (List.map_id' ps)
    rw [hmap]
    rfl
  | cons ci rest ih =>
    intro ps hq hok hstock
    have hokci := hok ci (by simp)
    unfold productOkB at hokci
    rcases hf : ps.find? (fun p => p.id == ci.product_id) with _ | p
    · rw [hf] at hokci
      cases hokci
    · rw [hf] at hokci
      have hokci2 : p.is_active = true := hokci
      have hstockci := hstock ci (by simp)
      unfold stockOkB at hstockci
      rw [hf] at hstockci
      have hdem : lineDemand (ci :: rest) ci.product_id ≤ p.stock_quantity :=
        of_decide_eq_true
          (hstockci : decide (lineDemand (ci :: rest) ci.product_id ≤ p.stock_quantity) = true)
      have hqrest : ∀ cj ∈ rest, 0 ≤ cj.quantity := fun cj h => hq cj (by simp [h])
      have hstk : ¬(p.stock_quantity < ci.quantity) := by
        rw [lineDemand_cons] at hdem
        have hself : (ci.product_id == ci.product_id) = true := by simp
        rw [if_pos hself] at hdem
        have := lineDemand_nonneg rest ci.product_id hqrest
        omega
      have hok2 : ∀ cj ∈ rest, productOkB (decStock ps ci.product_id ci.quantity) cj = true := by
        intro cj hj
        rw [productOkB_decStock]
        exact hok cj (by simp [hj])
      have hstock2 : ∀ cj ∈ rest,
          stockOkB (decStock ps ci.product_id ci.quantity) rest cj = true := by
        intro cj hj
        unfold stockOkB
        rw [find?_decStock]
        rcases hfj : ps.find? (fun p2 => p2.id == cj.product_id) with _ | pj
        · rw [hfj]
          rfl
        · rw [hfj]
          simp only [Option.map_some']
          have hpredj := List.find?_some hfj
          simp only [beq_iff_eq] at hpredj
          have hj0 := hstock cj (by simp [hj])
          unfold stockOkB at hj0
          rw [hfj] at hj0
          have hj1 : lineDemand (ci :: rest) cj.product_id ≤ pj.stock_quantity :=
            of_decide_eq_true
              (hj0 : decide (lineDemand (ci :: rest) cj.product_id ≤ pj.stock_quantity) = true)
          rw [lineDemand_cons] at hj1
          by_cases hsame : ci.product_id = cj.product_id
          · have hidj : (pj.id == ci.product_id) = true := by
              rw [beq_iff_eq]
              omega
            rw [if_pos hidj]
            rw [if_pos (show (ci.product_id == cj.product_id) = true by
              rw [beq_iff_eq]; exact hsame)] at hj1
            show decide (lineDemand rest cj.product_id ≤ pj.stock_quantity - ci.quantity) = true
            simp only [decide_eq_true_eq]
            omega
          · have hidj : ¬((pj.id == ci.product_id) = true) := by
              rw [beq_iff_eq]
              omega
            rw [if_neg hidj]
            rw [if_neg (show ¬((ci.product_id == cj.product_id) = true) by
              rw [beq_iff_eq]; exact hsame)] at hj1
            show decide (lineDemand rest cj.product_id ≤ pj.stock_quantity) = true
            simp only [decide_eq_true_eq]
            omega
      have hrec := ih (decStock ps ci.product_id ci.quantity) hqrest hok2 hstock2
      have htail : rest.map (itemDataAt (decStock ps ci.product_id ci.quantity)) =
          rest.map (itemDataAt ps) :=
        List.map_congr_left (fun cj _ => itemDataAt_decStock ps ci.product_id ci.quantity cj)
      have hhead : itemDataAt ps ci = snapshotOf p ci := by
        unfold itemDataAt
        rw [hf]
      have hsub : cartSubtotal ps (ci :: rest) =
          p.base_price * (ci.quantity : Rat) + cartSubtotal ps rest := by
        unfold cartSubtotal
        rw [List.map_cons, List.sum_cons]
        have : priceAt ps ci = p.base_price := by
          unfold priceAt
          rw [hf]
        rw [this]
      simp only [processCartItems, hf]
      rw [if_neg (by simp [hokci2]), if_neg hstk, hrec,
          stock_map_step, cartSubtotal_decStock, htail, hsub, List.map_cons, hhead]

/-- Product of the C2 counterexample: stock 5, active. -/
def c2Product : Product :=
  { id := 5, title := "Widget", base_price := 10, stock_quantity := 5, is_active := true }

/-- First cart line of the C2 counterexample: quantity 3 of product 5. -/
def c2LineA : CartItem :=
  { id := 1, user_id := 1, product_id := 5, quantity := 3,
    selected_options := some [("size", "M")], created_at := 1, updated_at := 1 }

/-- Second cart line of the C2 counterexample: another quantity 3 of
product 5, different options. -/
def c2LineB : CartItem :=
  { id := 2, user_id := 1, product_id := 5, quantity := 3,
    selected_options := some [("size", "L")], created_at := 2, updated_at := 2 }

/-- Store for the C2 counterexample. -/
def c2Db : DB := { products := [c2Product], cartItems := [c2LineA, c2LineB], nextCartItemId := 3 }

/-- C2 counterexample: the cart is non-empty and every line references the
existing, active product 5 with per-line sufficient stock (each line asks 3
of stock 5), yet checkout fails — the second line sees the stock the first
already decremented in session, so per-line sufficiency is not enough when
lines share a product. -/
theorem checkout_per_line_sufficiency_fails :
    (∀ ci ∈ c2Db.cartItems.filter (fun ci => ci.user_id == 1),
        productFailureB c2Db.products ci = false) ∧
    checkout c2Db 1 9 =
      .error (.http 400 ("Not enough stock for \x27Widget\x27. Available: 2")) := by decide

/-- C2 (amended): when the caller's cart is non-empty, every cart line
references an existing, active product, and each referenced product's stock
covers the cart's total demand for it (the sum of the quantities of the
lines that reference it — per-line sufficiency is enough only when no two
lines share a product), checkout succeeds and creates exactly one Order with
status Pending, zero tax and shipping, subtotal the exact-decimal sum of
unit price times quantity over the lines, and total equal to the subtotal;
creates one OrderItem per cart line in cart-line creation order,
snapshotting the product's title, image, unit price and the line's selected
options; decrements each product's stock by exactly the total purchased
quantity; and deletes all of the caller's cart lines, touching nothing
else. -/
theorem checkout_success_postconditions (db : DB) (userId now : Nat)
    (hne : userCartSorted db userId ≠ [])
    (hq : ∀ ci ∈ db.cartItems, 0 ≤ ci.quantity)
    (hok : ∀ ci ∈ userCartSorted db userId, productOkB db.products ci = true)
    (hstock : ∀ ci ∈ userCartSorted db userId,
      stockOkB db.products (userCartSorted db userId) ci = true) :
    checkout db userId now = .ok
      ({ db with
          products := db.products.map (fun p =>
            { p with stock_quantity :=
                p.stock_quantity - lineDemand (userCartSorted db userId) p.id }),
          orders := db.orders ++ [checkoutOrder db userId now],
          orderItems := db.orderItems ++ assignItemIds db.nextOrderItemId db.nextOrderId
            ((userCartSorted db userId).map (itemDataAt db.products)),
          cartItems := db.cartItems.filter (fun ci => ci.user_id != userId),
          nextOrderId := db.nextOrderId + 1,
          nextOrderItemId := db.nextOrderItemId + (userCartSorted db userId).length },
       checkoutOrder db userId now) := by
  have hqL : ∀ ci ∈ userCartSorted db userId, 0 ≤ ci.quantity := fun ci hci =>
    hq ci (List.mem_of_mem_filter (mem_sortByCreated.mp hci))
  have hrun := processCartItems_ok (userCartSorted db userId) db.products hqL hok hstock
  simp only [checkout]
  have hL : sortByCreated (db.cartItems.filter (fun ci => ci.user_id == userId)) =
      userCartSorted db userId := rfl
  rw [hL, List.isEmpty_eq_false.mpr hne, hrun]
  simp only [checkoutOrder, add_zero, List.length_map]
  rfl

/-- Product of the C2 witness store: stock 10, active. -/
def w2Product : Product :=
  { id := 5, title := "Widget", base_price := 10, stock_quantity := 10, is_active := true }

/-- Cart line of the C2 witness store: quantity 5 of product 5. -/
def w2Line : CartItem :=
  { id := 1, user_id := 1, product_id := 5, quantity := 5, created_at := 1, updated_at := 1 }

/-- Store for the C2 witness. -/
def w2Db : DB := { products := [w2Product], cartItems := [w2Line], nextCartItemId := 2 }

/-- C2 witness: the amended theorem applied to the concrete store — one
quantity-5 line on a stock-10 product. -/
theorem checkout_success_postconditions_witness :
    checkout w2Db 1 7 = .ok
      ({ w2Db with
          products := w2Db.products.map (fun p =>
            { p with stock_quantity :=
                p.stock_quantity - lineDemand (userCartSorted w2Db 1) p.id }),
          orders := w2Db.orders ++ [checkoutOrder w2Db 1 7],
          orderItems := w2Db.orderItems ++ assignItemIds w2Db.nextOrderItemId w2Db.nextOrderId
            ((userCartSorted w2Db 1).map (itemDataAt w2Db.products)),
          cartItems := w2Db.cartItems.filter (fun ci => ci.user_id != 1),
          nextOrderId := w2Db.nextOrderId + 1,
          nextOrderItemId := w2Db.nextOrderItemId + (userCartSorted w2Db 1).length },
       checkoutOrder w2Db 1 7) :=
  checkout_success_postconditions w2Db 1 7 (by decide) (by decide) (by decide) (by decide)

end Shop
